import Mathlib

/-!
Shallow embedding of `src/gelf.ts` (a GELF UDP client): normalization of a
log event into a GELF envelope (`sanitizeMsg`), size-based chunking of the
compressed payload (`maybeChunkMessage`, `getChunks`, `createPackets`), and
the sequential UDP send of the resulting datagrams (`send`), together with
the `gelf.log` dispatch path that ties them together.

Modelling conventions:
- JS `Buffer`s are `List Nat`; `Buffer.from(array)` truncates every entry
  to a byte (`value & 255`), modelled by `bufferByte` (`% 256`).
- JS numbers used by the envelope are modelled as `Rat` (timestamps may be
  fractional seconds); JS float formatting is abstracted by `ratRender`,
  which is deterministic and injective on the values the code produces.
- The wall clock (`new Date().getTime() / 1000`) and `os.hostname()` are
  passed as explicit parameters `now` and `hostname`.
- `zlib.deflate` is passed as an explicit function parameter `deflateFn`;
  the UDP socket is modelled by an outcome oracle `outcomes i`, the result
  of the `i`-th `client.send` callback (`none` = success).
- The user completion callback's return value matters in `send` (the code
  guards `emitError` behind `cb(err) && ...`); it is passed as the boolean
  `cbTruthy` (the default callback `() => {}` returns `undefined`, falsy).
-/

/-- A scalar JavaScript value as it can appear in a structured log event. -/
inductive JSValue where
  | str (s : String)
  | num (q : Rat)
  | bool (b : Bool)
  | null
deriving DecidableEq, Repr

/-- JavaScript truthiness for the scalar values of the model: empty string,
zero, `false` and `null` are falsy, everything else truthy. -/
def truthy : JSValue → Bool
  | JSValue.str s => if s = "" then false else true
  | JSValue.num q => if q = 0 then false else true
  | JSValue.bool b => b
  | JSValue.null => false

/-- Truthiness of `obj.key`: a missing key reads as `undefined`, falsy. -/
def truthyOpt : Option JSValue → Bool
  | some v => truthy v
  | none => false

/-- Input to `sanitizeMsg`: a free-text string or a structured mapping,
modelled as its ordered list of key/value pairs (JS object keys are unique
and iterate in insertion order). -/
inductive JSInput where
  | str (s : String)
  | obj (fields : List (String × JSValue))
deriving DecidableEq, Repr

/-- Property read `obj[k]` on the ordered field list. -/
def getKey : List (String × JSValue) → String → Option JSValue
  | [], _ => none
  | p :: rest, k => if p.1 = k then some p.2 else getKey rest k

/-- Property write `obj[k] = v`: updates an existing key in place (keeping
its position, as JS objects do) or appends a new key at the end. -/
def setKey : List (String × JSValue) → String → JSValue → List (String × JSValue)
  | [], k, v => [(k, v)]
  | p :: rest, k, v => if p.1 = k then (k, v) :: rest else p :: setKey rest k v

/-- String escaping done by `JSON.stringify` for the characters the model
cares about (backslash and double quote; control-character escapes are not
exercised by any claim). -/
def jsonEscapeChar (c : Char) : String :=
  if c = Char.ofNat 92 then "\\\\"
  else if c = Char.ofNat 34 then "\\\"" else String.singleton c

/-- Escape a whole string for JSON output. -/
def jsonEscape (s : String) : String :=
  String.join (s.toList.map jsonEscapeChar)

/-- Deterministic rendering of a model number. JS prints floats in decimal;
the claims only rely on this rendering being a fixed injective function of
the value, so integers print as integers and other rationals as a pair. -/
def ratRender (q : Rat) : String :=
  if q.den = 1 then toString q.num
  else toString q.num ++ "/" ++ toString q.den

/-- Rendering of one JSON scalar value. -/
def JSValue.render : JSValue → String
  | JSValue.str s => "\"" ++ jsonEscape s ++ "\""
  | JSValue.num q => ratRender q
  | JSValue.bool b => if b then "true" else "false"
  | JSValue.null => "null"

/-- Rendering of one `"key":value` pair. -/
def renderPair (p : String × JSValue) : String :=
  "\"" ++ jsonEscape p.1 ++ "\":" ++ JSValue.render p.2

/-- Model of `JSON.stringify` on a flat object, keys in insertion order. -/
def stringifyObj (l : List (String × JSValue)) : String :=
  "\x7b" ++ String.intercalate "," (l.map renderPair) ++ "\x7d"

/-- The configuration record (`GelfOptions` merged over `defaults`). -/
structure GelfConfig where
  graylogPort : Nat
  graylogHostname : String
  connection : String
  maxChunkSizeWan : Nat
  maxChunkSizeLan : Nat
deriving DecidableEq, Repr

/-- The `defaults` constant of the source. -/
def defaults : GelfConfig := ⟨12201, "127.0.0.1", "wan", 1420, 8154⟩

/-- The constant `GELF_MAGIC_NO = [0x1e, 0x0f]`. -/
def gelfMagicNo : List Nat := [0x1e, 0x0f]

/-- Byte coercion of `Buffer.from`: each array entry is truncated to a byte via `value & 255`. -/
def bufferByte (n : Nat) : Nat := n % 256

/-- The `getChunks` loop: slices of `chunkSize` consecutive entries, in
order, the last one possibly shorter. A zero `chunkSize` would not
terminate in the source; the model returns `[]` there (no claim uses it). -/
def getChunks (buf : List Nat) (chunkSize : Nat) : List (List Nat) :=
  if hb : buf = [] then []
  else if hn : chunkSize = 0 then []
  else buf.take chunkSize :: getChunks (buf.drop chunkSize) chunkSize
termination_by buf.length
decreasing_by
  have h1 : buf.length ≠ 0 := fun h => hb (List.length_eq_zero.mp h)
  simp only [List.length_drop]
  omega

/-- Model of `createPackets`: for each chunk, `Buffer.from(GELF_MAGIC_NO.concat(msgId,
index, count, chunk))`. `Array.concat` splices the chunk but keeps `msgId`,
`index` and `count` as single array entries, and `Buffer.from` then truncates
every entry mod 256 — in particular the whole 8-digit `msgId` collapses to
one byte. -/
def createPackets (msgId : Nat) (chunks : List (List Nat)) : List (List Nat) :=
  chunks.enum.map fun p =>
    ((gelfMagicNo ++ [msgId, p.1, chunks.length] ++ p.2).map bufferByte)

/-- Result of `maybeChunkMessage`: either the raw compressed buffer
(unchunked path) or the list of framed chunk packets. -/
inductive ChunkResult where
  | raw (buf : List Nat)
  | packets (ps : List (List Nat))
deriving DecidableEq, Repr

/-- Model of `maybeChunkMessage`: chunk only when the connection kind matches and the
payload strictly exceeds that kind's maximum chunk size. -/
def maybeChunkMessage (cfg : GelfConfig) (msgId : Nat) (buf : List Nat) : ChunkResult :=
  if cfg.connection = "wan" ∧ buf.length > cfg.maxChunkSizeWan then
    ChunkResult.packets (createPackets msgId (getChunks buf cfg.maxChunkSizeWan))
  else if cfg.connection = "lan" ∧ buf.length > cfg.maxChunkSizeLan then
    ChunkResult.packets (createPackets msgId (getChunks buf cfg.maxChunkSizeLan))
  else ChunkResult.raw buf

/-- Datagram list handed to the send fan-out: `send` wraps a bare buffer into a one-element array before fanning out. -/
def toDatagramList : ChunkResult → List (List Nat)
  | ChunkResult.raw b => [b]
  | ChunkResult.packets ps => ps

/-- Observable behaviour of one dispatch: the datagrams handed to
`client.send` in order, the invocations of the user completion callback,
the payloads of emitted `error` events, and an uncaught exception if the
run crashed. -/
structure Trace where
  udpSends : List (List Nat)
  cbCalls : List (Option String)
  errorsEmitted : List String
  thrown : Option String
deriving DecidableEq, Repr

/-- Model of `async.series` over the per-datagram send tasks: tasks run strictly in
order and the series stops at the first task that calls back with an error.
The failing send itself was issued (the error arrives in its callback).
Inside a task, `return cb(err) && self.emitError(err)` never reaches
`emitError`, because the series-internal callback returns `undefined`. -/
def runTasks (outcomes : Nat → Option String) : Nat → List (List Nat) → List (List Nat) × Option String
  | _, [] => ([], none)
  | i, d :: ds =>
    match outcomes i with
    | some e => ([d], some e)
    | none =>
      let r := runTasks outcomes (i + 1) ds
      (d :: r.1, r.2)

/-- Model of `Gelf.send`: fan the datagrams out sequentially; on first failure the
final callback gets the error, and `cb(err) && this.emitError(err)` emits
the `error` event only when the user callback returned a truthy value. -/
def send (m : ChunkResult) (outcomes : Nat → Option String) (cbTruthy : Bool) : Trace :=
  let r := runTasks outcomes 0 (toDatagramList m)
  match r.2 with
  | some e => ⟨r.1, [some e], if cbTruthy then [e] else [], none⟩
  | none => ⟨r.1, [none], [], none⟩

/-- Model of `Gelf.sendMessage`: compress, maybe chunk, send. When `deflate` fails,
`compress` invokes its callback with the error; that callback is the arrow
`(_, buf) => { const m = this.maybeChunkMessage(buf!); ... }`, which then
dereferences `buf.length` with `buf === undefined` and throws a `TypeError`.
The throw escapes before `compress` reaches its `emitError`, so neither the
user callback nor the error channel sees the compression failure. -/
def sendMessage (deflateFn : String → Except String (List Nat)) (cfg : GelfConfig)
    (msgId : Nat) (msg : String) (outcomes : Nat → Option String) (cbTruthy : Bool) : Trace :=
  match deflateFn msg with
  | Except.error _ => ⟨[], [], [], some "TypeError: Cannot read properties of undefined (reading length)"⟩
  | Except.ok buf => send (maybeChunkMessage cfg msgId buf) outcomes cbTruthy

/-- Model of `sanitizeMsg` up to (but not including) `JSON.stringify`: the local
`json` object right before serialization, or `none` when the `_id` guard
fired (the source then returns `this.emitError(new Error(...))`, which is
`undefined`). Field checks test the original input (`msg.version` …) except
the final `short_message` check, which tests `json`, exactly as the source
does; every default is guarded by JS truthiness, not by key presence. The
version/host/timestamp/facility defaults sit inside
`if (typeof msg === 'object')` and therefore never run for string input. -/
def sanitizeJson (msg : JSInput) (now : Rat) (hostname : String) :
    Option (List (String × JSValue)) :=
  match msg with
  | JSInput.str s =>
    let json := [("short_message", JSValue.str s)]
    let json := if truthyOpt (getKey json "short_message") then json
      else setKey json "short_message" (JSValue.str "Gelf Shortmessage")
    some json
  | JSInput.obj fields =>
    if truthyOpt (getKey fields "_id") then none
    else
      let json := fields
      let json := if truthyOpt (getKey fields "version") then json
        else setKey json "version" (JSValue.str "1.0")
      let json := if truthyOpt (getKey fields "host") then json
        else setKey json "host" (JSValue.str hostname)
      let json := if truthyOpt (getKey fields "timestamp") then json
        else setKey json "timestamp" (JSValue.num now)
      let json := if truthyOpt (getKey fields "facility") then json
        else setKey json "facility" (JSValue.str "node.js")
      let json := if truthyOpt (getKey json "short_message") then json
        else setKey json "short_message" (JSValue.str "Gelf Shortmessage")
      some json

/-- Model of `sanitizeMsg`: the serialized envelope, or `none` on `_id` rejection. -/
def sanitizeMsg (msg : JSInput) (now : Rat) (hostname : String) : Option String :=
  (sanitizeJson msg now hostname).map stringifyObj

/-- The `gelf.log` handler: normalize, then (via `setImmediate`) send. On
`_id` rejection `sanitizeMsg` returns `undefined`, the handler's
`|| ''` turns it into the empty string, and the pipeline still compresses
and sends that empty message; the rejection itself only produced an
`error` event. -/
def gelfLog (deflateFn : String → Except String (List Nat)) (cfg : GelfConfig)
    (msgId : Nat) (input : JSInput) (now : Rat) (hostname : String)
    (outcomes : Nat → Option String) (cbTruthy : Bool) : Trace :=
  match sanitizeMsg input now hostname with
  | none =>
    let t := sendMessage deflateFn cfg msgId "" outcomes cbTruthy
    ⟨t.udpSends, t.cbCalls, "_id is not allowed" :: t.errorsEmitted, t.thrown⟩
  | some m => sendMessage deflateFn cfg msgId m outcomes cbTruthy

/-- Unfolding equation of `getChunks` in the non-trivial case. -/
theorem getChunks_cons (buf : List Nat) (n : Nat) (hb : buf ≠ []) (hn : n ≠ 0) :
    getChunks buf n = buf.take n :: getChunks (buf.drop n) n := by
  rw [getChunks]
  simp [hb, hn]

/-- The `getChunks` loop body never runs on an empty buffer. -/
theorem getChunks_nil (n : Nat) : getChunks [] n = [] := by
  rw [getChunks]
  simp

/-- When every send succeeds, the series issues all datagrams and ends clean. -/
theorem runTasks_all_ok (i : Nat) (ds : List (List Nat)) :
    runTasks (fun _ => none) i ds = (ds, none) := by
  induction ds generalizing i with
  | nil => rfl
  | cons d ds ih => simp [runTasks, ih]

/-- Fully successful send: all datagrams go out, the callback gets `null`,
no `error` event, no exception. -/
theorem send_all_ok (m : ChunkResult) (b : Bool) :
    send m (fun _ => none) b = ⟨toDatagramList m, [none], [], none⟩ := by
  simp [send, runTasks_all_ok]

/-- Every packet produced by `createPackets` starts with the two magic bytes
followed by the (truncated) message id, and its fifth byte is the truncated
total chunk count. -/
theorem createPackets_header (msgId : Nat) (chunks : List (List Nat)) (d : List Nat)
    (hd : d ∈ createPackets msgId chunks) :
    d.take 3 = [30, 15, msgId % 256] ∧ d[2]? = some (msgId % 256) ∧
    d[4]? = some (chunks.length % 256) := by
  rcases List.mem_map.mp hd with ⟨p, hp, rfl⟩
  simp [gelfMagicNo, bufferByte, List.take]

/-- Every chunk produced by `getChunks` is at most `n` entries long
(fuel-indexed form, fuel bounding the buffer length). -/
theorem getChunks_len_le (n : Nat) :
    ∀ (k : Nat) (buf : List Nat), buf.length ≤ k → ∀ c ∈ getChunks buf n, c.length ≤ n := by
  intro k
  induction k with
  | zero =>
    intro buf hbl c hc
    have hb : buf = [] := List.length_eq_zero.mp (Nat.le_zero.mp hbl)
    rw [hb, getChunks_nil] at hc
    simp at hc
  | succ k ih =>
    intro buf hbl c hc
    by_cases hb : buf = []
    · rw [hb, getChunks_nil] at hc; simp at hc
    · by_cases hn : n = 0
      · rw [getChunks] at hc; simp [hb, hn] at hc
      · rw [getChunks_cons buf n hb hn] at hc
        rcases List.mem_cons.mp hc with rfl | hc
        · simp [List.length_take]
        · have hlen : (buf.drop n).length ≤ k := by
            have h1 : buf.length ≠ 0 := fun h => hb (List.length_eq_zero.mp h)
            simp only [List.length_drop]
            omega
          exact ih (buf.drop n) hlen c hc

/-- Concrete evaluation of the chunk split of `[1, 2, 3]` at chunk size 2. -/
theorem getChunks_three_two : getChunks [1, 2, 3] 2 = [[1, 2], [3]] := by
  have e1 : getChunks [1, 2, 3] 2 = [1, 2] :: getChunks [3] 2 := by
    rw [getChunks_cons [1, 2, 3] 2 (by decide) (by decide)]
    rfl
  have e2 : getChunks [3] 2 = [3] :: getChunks ([] : List Nat) 2 := by
    rw [getChunks_cons [3] 2 (by decide) (by decide)]
    rfl
  rw [e1, e2, getChunks_nil]

/-- C1: refuted on the code. With `connection='wan'`, `maxChunkSizeWan = 2`
and payload `[1, 2, 3]` (longer than the configured maximum), stripping 12
bytes from each produced datagram and concatenating in sequence order gives
`[]`, not the payload: the datagrams actually carry a 5-byte header, and
stripping 5 bytes per datagram does reproduce the payload byte for byte. -/
theorem gelf_C1_actual :
    ((toDatagramList (maybeChunkMessage ⟨12201, "127.0.0.1", "wan", 2, 8154⟩ 12345678 [1, 2, 3])).map (List.drop 12)).flatten = [] ∧
    ((toDatagramList (maybeChunkMessage ⟨12201, "127.0.0.1", "wan", 2, 8154⟩ 12345678 [1, 2, 3])).map (List.drop 5)).flatten = [1, 2, 3] := by
  have hm : maybeChunkMessage ⟨12201, "127.0.0.1", "wan", 2, 8154⟩ 12345678 [1, 2, 3] =
      ChunkResult.packets (createPackets 12345678 [[1, 2], [3]]) := by
    simp [maybeChunkMessage, getChunks_three_two]
  rw [hm]
  decide

/-- C2: refuted on the code. For message id 12345678 and chunks
`[[1, 2], [3]]`, the produced datagrams are 7 and 6 bytes long: a 5-byte
header `[0x1e, 0x0f, msgId mod 256, index, count]` plus the fragment.
`Array.prototype.concat` keeps the whole 8-digit id as a single array entry
and `Buffer.from` truncates it to the one byte `12345678 mod 256 = 78`, so
there is no 12-byte header and no 8-byte message id. -/
theorem gelf_C2_actual :
    createPackets 12345678 [[1, 2], [3]] = [[30, 15, 78, 0, 2, 1, 2], [30, 15, 78, 1, 2, 3]] ∧
    (createPackets 12345678 [[1, 2], [3]]).map List.length = [7, 6] := by
  decide

/-- C3 counterexample: a structured input carrying `_id` with the falsy
value `0` is not rejected — normalization succeeds and the serialized
envelope still contains `_id` — so "containing the key `_id`, with any
value, normalization fails" is false on the code (the guard is the JS
truthiness test `if (msg._id)`). -/
theorem gelf_C3_cex :
    sanitizeMsg (JSInput.obj [("_id", JSValue.num 0), ("short_message", JSValue.str "x")]) 0 "h" =
      some "\x7b\"_id\":0,\"short_message\":\"x\",\"version\":\"1.0\",\"host\":\"h\",\"timestamp\":0,\"facility\":\"node.js\"\x7d" := by
  decide

/-- C3 (amended): for a structured input whose `_id` value is truthy,
normalization fails (no envelope) and `_id is not allowed` is the one
`error` event; but the `gelf.log` dispatch turns the `undefined` result
into `''`, so the pipeline still compresses the empty string and sends the
resulting datagram(s), and the completion callback reports success. -/
theorem gelf_C3_amended (fields : List (String × JSValue)) (v : JSValue) (now : Rat)
    (hostname : String) (deflateFn : String → Except String (List Nat)) (cfg : GelfConfig)
    (msgId : Nat) (buf : List Nat)
    (hk : getKey fields "_id" = some v) (htr : truthy v = true)
    (hdf : deflateFn "" = Except.ok buf) :
    sanitizeMsg (JSInput.obj fields) now hostname = none ∧
    (gelfLog deflateFn cfg msgId (JSInput.obj fields) now hostname (fun _ => none) false).errorsEmitted = ["_id is not allowed"] ∧
    (gelfLog deflateFn cfg msgId (JSInput.obj fields) now hostname (fun _ => none) false).udpSends = toDatagramList (maybeChunkMessage cfg msgId buf) ∧
    (gelfLog deflateFn cfg msgId (JSInput.obj fields) now hostname (fun _ => none) false).cbCalls = [none] := by
  have hid : truthyOpt (getKey fields "_id") = true := by rw [hk]; exact htr
  have hs : sanitizeMsg (JSInput.obj fields) now hostname = none := by
    simp [sanitizeMsg, sanitizeJson, hid]
  refine ⟨hs, ?_, ?_, ?_⟩ <;>
    simp [gelfLog, hs, sendMessage, hdf, send_all_ok]

/-- C4: with the default profile (`connection='wan'`, `maxChunkSizeWan =
1420`), a 1420-byte payload passes through as a single unframed raw
datagram, while a 1421-byte payload is split into 2 (hence at least two)
framed datagrams whose fragments are each at most 1420 bytes long. -/
theorem gelf_C4 (buf1 buf2 : List Nat) (msgId : Nat)
    (hb1 : buf1.length = 1420) (hb2 : buf2.length = 1421) :
    maybeChunkMessage defaults msgId buf1 = ChunkResult.raw buf1 ∧
    maybeChunkMessage defaults msgId buf2 =
      ChunkResult.packets (createPackets msgId (getChunks buf2 1420)) ∧
    2 ≤ (createPackets msgId (getChunks buf2 1420)).length ∧
    ∀ c ∈ getChunks buf2 1420, c.length ≤ 1420 := by
  have hne : buf2 ≠ [] := by intro h; rw [h] at hb2; simp at hb2
  have hd1 : (buf2.drop 1420).length = 1 := by simp [hb2]
  have hdne : buf2.drop 1420 ≠ [] := by intro h; rw [h] at hd1; simp at hd1
  have hdd : (buf2.drop 1420).drop 1420 = [] := by
    apply List.length_eq_zero.mp
    simp only [List.length_drop]
    omega
  have hch : getChunks buf2 1420 = [buf2.take 1420, (buf2.drop 1420).take 1420] := by
    rw [getChunks_cons buf2 1420 hne (by decide),
      getChunks_cons _ 1420 hdne (by decide), hdd, getChunks_nil]
  refine ⟨?_, ?_, ?_, ?_⟩
  · simp [maybeChunkMessage, defaults, hb1]
  · simp [maybeChunkMessage, defaults, hb2]
  · simp [createPackets, hch]
  · exact fun c hc => getChunks_len_le 1420 buf2.length buf2 le_rfl c hc

/-- C5 counterexample: for a 3-chunk message whose second send fails, the
transport does issue exactly the 2 sends for chunks 0 and 1 — but it does
not surface exactly one `TransportError` on the error-notification channel:
`cb(err) && this.emitError(err)` short-circuits on the default callback's
falsy return, so zero `error` events are emitted. -/
theorem gelf_C5_cex :
    (send (ChunkResult.packets [[1], [2], [3]]) (fun i => if i = 1 then some "EHOSTUNREACH" else none) false).udpSends = [[1], [2]] ∧
    ¬ (send (ChunkResult.packets [[1], [2], [3]]) (fun i => if i = 1 then some "EHOSTUNREACH" else none) false).errorsEmitted.length = 1 := by
  decide

/-- C5 (amended): for a 3-chunk message whose second send fails (default
completion callback), exactly the sends for chunks 0 and 1 are issued,
chunk 2 is never sent, and the one `TransportError` reaches only the
completion callback; the error-channel publication is skipped because it is
guarded by the callback's (falsy) return value. -/
theorem gelf_C5_amended (d0 d1 d2 : List Nat) (outcomes : Nat → Option String) (e : String)
    (h0 : outcomes 0 = none) (h1 : outcomes 1 = some e) :
    send (ChunkResult.packets [d0, d1, d2]) outcomes false = ⟨[d0, d1], [some e], [], none⟩ := by
  simp [send, toDatagramList, runTasks, h0, h1]

/-- C6 counterexample: a terminal transport failure with the default
completion callback is passed to the callback but never published on the
generic error channel, so "both" fails on the code. -/
theorem gelf_C6_cex :
    (send (ChunkResult.raw [7]) (fun _ => some "EHOSTUNREACH") false).cbCalls = [some "EHOSTUNREACH"] ∧
    (send (ChunkResult.raw [7]) (fun _ => some "EHOSTUNREACH") false).errorsEmitted = [] := by
  decide

/-- C6 (amended): no single channel pair holds. A compression failure is
lost to an uncaught `TypeError` (the compress callback dereferences the
`undefined` buffer), reaching neither the callback nor the error channel; a
transport failure reaches the callback, and the error channel only if the
callback returns truthy; a validation (`_id`) failure is published on the
error channel while the completion callback is invoked with success. -/
theorem gelf_C6_amended :
    (∀ (deflateFn : String → Except String (List Nat)) (cfg : GelfConfig) (msgId : Nat)
      (msg e : String) (outcomes : Nat → Option String) (b : Bool),
      deflateFn msg = Except.error e →
      sendMessage deflateFn cfg msgId msg outcomes b =
        ⟨[], [], [], some "TypeError: Cannot read properties of undefined (reading length)"⟩) ∧
    (∀ (buf : List Nat) (outcomes : Nat → Option String) (e : String) (b : Bool),
      outcomes 0 = some e →
      send (ChunkResult.raw buf) outcomes b = ⟨[buf], [some e], if b then [e] else [], none⟩) ∧
    (∀ (fields : List (String × JSValue)) (v : JSValue) (now : Rat) (hostname : String)
      (deflateFn : String → Except String (List Nat)) (cfg : GelfConfig) (msgId : Nat)
      (buf : List Nat),
      getKey fields "_id" = some v → truthy v = true → deflateFn "" = Except.ok buf →
      (gelfLog deflateFn cfg msgId (JSInput.obj fields) now hostname (fun _ => none) false).errorsEmitted = ["_id is not allowed"] ∧
      (gelfLog deflateFn cfg msgId (JSInput.obj fields) now hostname (fun _ => none) false).cbCalls = [none]) := by
  refine ⟨?_, ?_, ?_⟩
  · intro deflateFn cfg msgId msg e outcomes b hdf
    simp [sendMessage, hdf]
  · intro buf outcomes e b h0
    simp [send, toDatagramList, runTasks, h0]
  · intro fields v now hostname deflateFn cfg msgId buf hk htr hdf
    have h := gelf_C3_amended fields v now hostname deflateFn cfg msgId buf hk htr hdf
    exact ⟨h.2.1, h.2.2.2⟩

/-- C7 counterexample: normalizing the string "hello" yields the envelope
`[("short_message", "hello")]` with no `version`, `host`, `timestamp` or
`facility` key at all — the defaults sit inside `if (typeof msg ===
'object')` and never run for string input. -/
theorem gelf_C7_cex :
    sanitizeJson (JSInput.str "hello") 5 "somehost" = some [("short_message", JSValue.str "hello")] ∧
    getKey [("short_message", JSValue.str "hello")] "version" = none ∧
    getKey [("short_message", JSValue.str "hello")] "host" = none ∧
    getKey [("short_message", JSValue.str "hello")] "timestamp" = none ∧
    getKey [("short_message", JSValue.str "hello")] "facility" = none := by
  decide

/-- C7 (amended): normalizing the string "hello" produces, for every clock
value and hostname, exactly the envelope whose serialization is
`\x7b"short_message":"hello"\x7d`; none of the default fields appear. -/
theorem gelf_C7_amended (now : Rat) (hostname : String) :
    sanitizeJson (JSInput.str "hello") now hostname = some [("short_message", JSValue.str "hello")] ∧
    sanitizeMsg (JSInput.str "hello") now hostname = some "\x7b\"short_message\":\"hello\"\x7d" := by
  exact ⟨rfl, rfl⟩

/-- C8: any two datagrams of one `createPackets` call carry the identical
message-id byte (position 2, the truncated `msgId`) and the identical
total-count byte (position 4); each also starts with the magic bytes. -/
theorem gelf_C8 (msgId : Nat) (chunks : List (List Nat)) (d1 d2 : List Nat)
    (hm1 : d1 ∈ createPackets msgId chunks) (hm2 : d2 ∈ createPackets msgId chunks) :
    d1.take 3 = [30, 15, msgId % 256] ∧ d1[4]? = some (chunks.length % 256) ∧
    d1[2]? = d2[2]? ∧ d1[4]? = d2[4]? := by
  obtain ⟨h1t, h1b2, h1b4⟩ := createPackets_header msgId chunks d1 hm1
  obtain ⟨h2t, h2b2, h2b4⟩ := createPackets_header msgId chunks d2 hm2
  exact ⟨h1t, h1b4, by rw [h1b2, h2b2], by rw [h1b4, h2b4]⟩

/-- C9 counterexample: an input that does contain `version`, `host`,
`timestamp` and `facility` — but with the falsy timestamp `0` — normalizes
differently under two clock readings, because every default is guarded by
truthiness rather than key presence, so the clock default still fires. -/
theorem gelf_C9_cex :
    sanitizeMsg (JSInput.obj [("version", JSValue.str "1.0"), ("host", JSValue.str "h"),
      ("timestamp", JSValue.num 0), ("facility", JSValue.str "f"),
      ("short_message", JSValue.str "x")]) 0 "me" ≠
    sanitizeMsg (JSInput.obj [("version", JSValue.str "1.0"), ("host", JSValue.str "h"),
      ("timestamp", JSValue.num 0), ("facility", JSValue.str "f"),
      ("short_message", JSValue.str "x")]) 1 "me" := by
  decide

/-- C9 (amended): when `version`, `host`, `timestamp` and `facility` are
all present with truthy values, normalization is independent of the clock
and hostname, hence byte-identical across runs. -/
theorem gelf_C9_amended (fields : List (String × JSValue)) (now1 now2 : Rat)
    (hostA hostB : String)
    (hv : truthyOpt (getKey fields "version") = true)
    (hh : truthyOpt (getKey fields "host") = true)
    (htm : truthyOpt (getKey fields "timestamp") = true)
    (hf : truthyOpt (getKey fields "facility") = true) :
    sanitizeMsg (JSInput.obj fields) now1 hostA = sanitizeMsg (JSInput.obj fields) now2 hostB := by
  simp [sanitizeMsg, sanitizeJson, hv, hh, htm, hf]

/-- C10: with any connection value other than `wan` or `lan`, the payload
is returned unchanged — never chunked, never framed — whatever its size. -/
theorem gelf_C10 (cfg : GelfConfig) (msgId : Nat) (buf : List Nat)
    (hw : cfg.connection ≠ "wan") (hl : cfg.connection ≠ "lan") :
    maybeChunkMessage cfg msgId buf = ChunkResult.raw buf := by
  simp [maybeChunkMessage, hw, hl]

/-- Witness for C3 (amended) at a concrete rejected input. -/
theorem gelf_C3_amended_w :
    sanitizeMsg (JSInput.obj [("_id", JSValue.str "x")]) 0 "h" = none ∧
    (gelfLog (fun _ => Except.ok [9]) defaults 1 (JSInput.obj [("_id", JSValue.str "x")]) 0 "h" (fun _ => none) false).errorsEmitted = ["_id is not allowed"] ∧
    (gelfLog (fun _ => Except.ok [9]) defaults 1 (JSInput.obj [("_id", JSValue.str "x")]) 0 "h" (fun _ => none) false).udpSends = toDatagramList (maybeChunkMessage defaults 1 [9]) ∧
    (gelfLog (fun _ => Except.ok [9]) defaults 1 (JSInput.obj [("_id", JSValue.str "x")]) 0 "h" (fun _ => none) false).cbCalls = [none] :=
  gelf_C3_amended [("_id", JSValue.str "x")] (JSValue.str "x") 0 "h"
    (fun _ => Except.ok [9]) defaults 1 [9] (by decide) (by decide) rfl

/-- Witness for C4 at concrete payloads of 1420 and 1421 zero bytes. -/
theorem gelf_C4_w :
    maybeChunkMessage defaults 12345678 (List.replicate 1420 0) = ChunkResult.raw (List.replicate 1420 0) ∧
    2 ≤ (createPackets 12345678 (getChunks (List.replicate 1421 0) 1420)).length := by
  have h := gelf_C4 (List.replicate 1420 0) (List.replicate 1421 0) 12345678
    (List.length_replicate 1420 0) (List.length_replicate 1421 0)
  exact ⟨h.1, h.2.2.1⟩

/-- Witness for C5 (amended) at a concrete failing second send. -/
theorem gelf_C5_amended_w :
    send (ChunkResult.packets [[1], [2], [3]]) (fun i => if i = 0 then none else some "EHOSTUNREACH") false =
      ⟨[[1], [2]], [some "EHOSTUNREACH"], [], none⟩ :=
  gelf_C5_amended [1] [2] [3] (fun i => if i = 0 then none else some "EHOSTUNREACH") "EHOSTUNREACH" rfl rfl

/-- Witness for C6 (amended) at concrete compression, transport and
validation failures. -/
theorem gelf_C6_amended_w :
    sendMessage (fun _ => Except.error "deflate broke") defaults 1 "m" (fun _ => none) false =
      ⟨[], [], [], some "TypeError: Cannot read properties of undefined (reading length)"⟩ ∧
    send (ChunkResult.raw [7]) (fun _ => some "ENETDOWN") true = ⟨[[7]], [some "ENETDOWN"], ["ENETDOWN"], none⟩ ∧
    ((gelfLog (fun _ => Except.ok [8, 9]) defaults 2 (JSInput.obj [("_id", JSValue.bool true)]) 0 "h" (fun _ => none) false).errorsEmitted = ["_id is not allowed"] ∧
      (gelfLog (fun _ => Except.ok [8, 9]) defaults 2 (JSInput.obj [("_id", JSValue.bool true)]) 0 "h" (fun _ => none) false).cbCalls = [none]) :=
  ⟨gelf_C6_amended.1 (fun _ => Except.error "deflate broke") defaults 1 "m" "deflate broke" (fun _ => none) false rfl,
    gelf_C6_amended.2.1 [7] (fun _ => some "ENETDOWN") "ENETDOWN" true rfl,
    gelf_C6_amended.2.2 [("_id", JSValue.bool true)] (JSValue.bool true) 0 "h"
      (fun _ => Except.ok [8, 9]) defaults 2 [8, 9] (by decide) rfl rfl⟩

/-- Witness for C7 (amended) at a concrete clock value and hostname. -/
theorem gelf_C7_amended_w :
    sanitizeMsg (JSInput.str "hello") 42 "anyhost" = some "\x7b\"short_message\":\"hello\"\x7d" :=
  (gelf_C7_amended 42 "anyhost").2

/-- Witness for C8 on the two packets of a concrete 2-chunk message. -/
theorem gelf_C8_w :
    List.take 3 [30, 15, 78, 0, 2, 1] = [30, 15, 12345678 % 256] ∧
    [30, 15, 78, 0, 2, 1][4]? = some ([[1], [2]].length % 256) ∧
    [30, 15, 78, 0, 2, 1][2]? = [30, 15, 78, 1, 2, 2][2]? ∧
    [30, 15, 78, 0, 2, 1][4]? = [30, 15, 78, 1, 2, 2][4]? :=
  gelf_C8 12345678 [[1], [2]] [30, 15, 78, 0, 2, 1] [30, 15, 78, 1, 2, 2] (by decide) (by decide)

/-- Witness for C9 (amended) on a fully populated truthy input under two
different clock readings and hostnames. -/
theorem gelf_C9_amended_w :
    sanitizeMsg (JSInput.obj [("version", JSValue.str "1.1"), ("host", JSValue.str "web1"),
      ("timestamp", JSValue.num 7), ("facility", JSValue.str "app"),
      ("short_message", JSValue.str "m")]) 3 "a" =
    sanitizeMsg (JSInput.obj [("version", JSValue.str "1.1"), ("host", JSValue.str "web1"),
      ("timestamp", JSValue.num 7), ("facility", JSValue.str "app"),
      ("short_message", JSValue.str "m")]) 9 "b" :=
  gelf_C9_amended [("version", JSValue.str "1.1"), ("host", JSValue.str "web1"),
    ("timestamp", JSValue.num 7), ("facility", JSValue.str "app"),
    ("short_message", JSValue.str "m")] 3 9 "a" "b" (by decide) (by decide) (by decide) (by decide)

/-- Witness for C10 with `connection='tcp'` and an oversized payload. -/
theorem gelf_C10_w :
    maybeChunkMessage ⟨12201, "127.0.0.1", "tcp", 2, 3⟩ 5 [1, 2, 3, 4, 5] = ChunkResult.raw [1, 2, 3, 4, 5] :=
  gelf_C10 ⟨12201, "127.0.0.1", "tcp", 2, 3⟩ 5 [1, 2, 3, 4, 5] (by decide) (by decide)

/-- Concatenating the chunks of `getChunks` restores the buffer
(fuel-indexed form). -/
theorem getChunks_flatten_aux (n : Nat) (hn : n ≠ 0) :
    ∀ (k : Nat) (buf : List Nat), buf.length ≤ k → (getChunks buf n).flatten = buf := by
  intro k
  induction k with
  | zero =>
    intro buf hbl
    have hb : buf = [] := List.length_eq_zero.mp (Nat.le_zero.mp hbl)
    rw [hb, getChunks_nil]
    rfl
  | succ k ih =>
    intro buf hbl
    by_cases hb : buf = []
    · rw [hb, getChunks_nil]; rfl
    · rw [getChunks_cons buf n hb hn]
      have hlen : (buf.drop n).length ≤ k := by
        have h1 : buf.length ≠ 0 := fun h => hb (List.length_eq_zero.mp h)
        simp only [List.length_drop]
        omega
      simp only [List.flatten_cons, ih (buf.drop n) hlen, List.take_append_drop]

/-- Concatenating the chunks of `getChunks` restores the buffer. -/
theorem getChunks_flatten (buf : List Nat) (n : Nat) (hn : n ≠ 0) :
    (getChunks buf n).flatten = buf :=
  getChunks_flatten_aux n hn buf.length buf le_rfl

/-- Every entry of every chunk comes from the original buffer. -/
theorem getChunks_subset (n : Nat) :
    ∀ (k : Nat) (buf : List Nat), buf.length ≤ k →
      ∀ c ∈ getChunks buf n, ∀ b ∈ c, b ∈ buf := by
  intro k
  induction k with
  | zero =>
    intro buf hbl c hc
    have hb : buf = [] := List.length_eq_zero.mp (Nat.le_zero.mp hbl)
    rw [hb, getChunks_nil] at hc
    simp at hc
  | succ k ih =>
    intro buf hbl c hc b hbc
    by_cases hb : buf = []
    · rw [hb, getChunks_nil] at hc; simp at hc
    · by_cases hzero : n = 0
      · rw [getChunks] at hc; simp [hb, hzero] at hc
      · rw [getChunks_cons buf n hb hzero] at hc
        rcases List.mem_cons.mp hc with rfl | hc
        · exact List.take_subset n buf hbc
        · have hlen : (buf.drop n).length ≤ k := by
            have h1 : buf.length ≠ 0 := fun h => hb (List.length_eq_zero.mp h)
            simp only [List.length_drop]
            omega
          exact List.drop_subset n buf (ih (buf.drop n) hlen c hc b hbc)

/-- Dropping the actual 5-byte header of each packet leaves exactly the
(byte-truncated) fragments. -/
theorem createPackets_strip5 (msgId : Nat) (chunks : List (List Nat)) :
    (createPackets msgId chunks).map (List.drop 5) = chunks.map (List.map bufferByte) := by
  simp only [createPackets, List.map_map]
  have he : (List.drop 5 ∘ fun p : Nat × List Nat =>
      (gelfMagicNo ++ [msgId, p.1, chunks.length] ++ p.2).map bufferByte) =
      (List.map bufferByte ∘ Prod.snd) := by
    funext p
    rfl
  rw [he, ← List.map_map, List.enum_map_snd]

/-- General round-trip that does hold on the code: for any byte payload and
any nonzero chunk size, stripping 5 bytes (not 12) from each datagram of
`createPackets` over `getChunks` and concatenating in sequence order
reproduces the payload exactly. -/
theorem gelf_strip5_roundtrip (msgId n : Nat) (buf : List Nat) (hn : n ≠ 0)
    (hb : ∀ b ∈ buf, b < 256) :
    ((createPackets msgId (getChunks buf n)).map (List.drop 5)).flatten = buf := by
  rw [createPackets_strip5]
  have hid : (getChunks buf n).map (List.map bufferByte) = getChunks buf n := by
    have h1 : ∀ c ∈ getChunks buf n, c.map bufferByte = c := by
      intro c hc
      have h2 : ∀ b ∈ c, bufferByte b = b := fun b hbc =>
        Nat.mod_eq_of_lt (hb b (getChunks_subset n buf.length buf le_rfl c hc b hbc))
      calc c.map bufferByte = c.map id := List.map_congr_left h2
        _ = c := List.map_id c
    calc (getChunks buf n).map (List.map bufferByte) = (getChunks buf n).map id :=
          List.map_congr_left h1
      _ = getChunks buf n := List.map_id _
  rw [hid, getChunks_flatten buf n hn]
